import Mathlib

/-!
Shallow embedding of the billing-synchronization layer of
pinax/django-stripe-payments: the Sync and Action routines of
`pinax/stripe/actions/plans.py`, `pinax/stripe/actions/skus.py`,
`pinax/stripe/actions/invoices.py` and the webhook dispatch of
`payments/views.py`, together with proofs of the specification claims.

The local relational store is modelled as finite maps keyed by the Stripe
id of each object (`Map`), and the payment processor is modelled as a
pure oracle (`Env`) whose answers are fixed for the duration of a call.
Every call an Action or Sync routine makes against the processor is
recorded in a trace of `StripeCall` values so that read/write properties
of the data flow can be stated.
-/

/-- A table of the local store, keyed by Stripe id.  Django
`get_or_create` / `save` by unique id is modelled as function update. -/
abbrev Map (α : Type) : Type := String → Option α

/-- Write the row with key `k`; this is the net effect of
`get_or_create(stripe_id=k, defaults=d)` followed by
`utils.update_with_defaults(obj, d, created)`, which sets every field of
the row to the values in `d` whether the row was created or found. -/
def Map.set {α : Type} (m : Map α) (k : String) (v : α) : Map α :=
  fun q => if q = k then some v else m q

/-- The empty table. -/
def Map.empty {α : Type} : Map α := fun _ => none

/-- Association-list lookup by Stripe id: first row with the key. -/
def lookupA {α : Type} : List (String × α) → String → Option α
  | [], _ => none
  | kv :: t, k => if kv.1 == k then some kv.2 else lookupA t k

/-- Overwrite every row carrying key `k` with the new values. -/
def setA {α : Type} (l : List (String × α)) (k : String) (v : α) : List (String × α) :=
  l.map (fun kv => if kv.1 == k then (k, v) else kv)

/-- `get_or_create` plus `update_with_defaults` on a row set represented
as an association list: update in place when the key is present,
otherwise append a fresh row. -/
def upsertA {α : Type} (l : List (String × α)) (k : String) (v : α) : List (String × α) :=
  if (lookupA l k).isSome then setA l k v else l ++ [(k, v)]

/-- Apply a sequence of keyed row writes to an association list. -/
def applyUpsA {α : Type} (l : List (String × α)) (us : List (String × α)) : List (String × α) :=
  us.foldl (fun acc kv => upsertA acc kv.1 kv.2) l

/-- Apply a sequence of keyed writes to a table. -/
def applySets {α : Type} (us : List (String × α)) (m : Map α) : Map α :=
  us.foldl (fun acc kv => acc.set kv.1 kv.2) m

/-- Apply an optional keyed write to a table. -/
def applyOptSet {α : Type} (m : Map α) : Option (String × α) → Map α
  | some kv => m.set kv.1 kv.2
  | none => m

/-- The value the last write to key `k` in the sequence carries, if any. -/
def assocLast {α : Type} : List (String × α) → String → Option α
  | [], _ => none
  | kv :: t, k =>
    match assocLast t k with
    | some v => some v
    | none => if kv.1 = k then some kv.2 else none

/-- Python `x or d` on an optional string: `None` and the empty string
are falsy and give the default. -/
def pyOr (o : Option String) (d : String) : String :=
  match o with
  | some s => if s = "" then d else s
  | none => d

/-- Python `x or d` on a plain string: the empty string gives the default. -/
def pyOrS (s d : String) : String :=
  if s = "" then d else s

/-- Python truthiness of an optional string normalised so that `some ""`
becomes `none`; used where the source branches on `if value:`. -/
def pyStrOpt (o : Option String) : Option String :=
  match o with
  | some s => if s = "" then none else some s
  | none => none

/-- Modelled from the spec: the currency list of `utils.py` (not under
src/) naming the currencies whose smallest unit is the whole unit. -/
def ZERO_DECIMAL_CURRENCIES : List String :=
  ["bif", "clp", "djf", "gnf", "jpy", "kmf", "komf", "krw", "mga",
   "pyg", "rwf", "vnd", "vuv", "xaf", "xof", "xpf"]

/-- Modelled from the spec: `utils.convert_amount_for_db` (utils.py is
not under src/) divides a processor amount in the smallest currency unit
by 100 except for zero-decimal currencies. -/
def convert_amount_for_db (amount : Int) (currency : String) : Rat :=
  if currency.toLower ∈ ZERO_DECIMAL_CURRENCIES then (amount : Rat)
  else (amount : Rat) / 100

/-- Modelled from the spec: `utils.convert_amount_for_api` (utils.py is
not under src/) is the inverse conversion, to smallest currency units. -/
def convert_amount_for_api (amount : Rat) (currency : String) : Rat :=
  if currency.toLower ∈ ZERO_DECIMAL_CURRENCIES then amount
  else amount * 100

/-- Modelled from the spec: `utils.convert_tstamp` (utils.py is not under
src/) turns an optional epoch timestamp into an optional datetime; here
datetimes are represented by the epoch value itself, so the conversion is
the identity on optional timestamps. -/
def convert_tstamp (t : Option Int) : Option Int := t

/-- Errors raised by the processor SDK.  `invalidRequest` is
`stripe.InvalidRequestError`, with its message; `otherError` stands for
every other exception type the SDK may raise. -/
inductive StripeErr : Type
  | invalidRequest (msg : String)
  | otherError (msg : String)
deriving DecidableEq

/-- Whether `pat` occurs as a contiguous sublist of `s`. -/
def subList (pat : List Char) : List Char → Bool
  | [] => pat.isEmpty
  | c :: rest => pat.isPrefixOf (c :: rest) || subList pat rest

/-- Python `s.find(pat) != -1`: substring containment test. -/
def containsSub (s pat : String) : Bool :=
  subList pat.data s.data

/-- Python `s.endswith(pat)`. -/
def pyEndsWith (s pat : String) : Bool :=
  pat.data.isSuffixOf s.data

/-- A call made against the processor API, as recorded in a trace. -/
inductive StripeCall : Type
  | planList
  | skuList
  | subscriptionRetrieve (id : String)
  | chargeRetrieve (id : String)
  | invoiceCreate (customer : String)
  | invoicePay (id : String)
  | invoiceRetrieve (id : String)
  | skuRetrieve (id : String)
  | skuCreate
deriving DecidableEq

/-- Whether the processor call mutates processor state.  List and
retrieve calls are reads; create and pay calls are writes. -/
def StripeCall.isWrite : StripeCall → Bool
  | .invoiceCreate _ => true
  | .invoicePay _ => true
  | .skuCreate => true
  | _ => false

/-- Local-store exception: `Model.DoesNotExist` raised by
`Model.objects.get`. -/
inductive SyncErr : Type
  | doesNotExist (model : String)
deriving DecidableEq

/-- One tier of a tiered plan as delivered by the processor. -/
structure TierPayload : Type where
  amount : Int
  flat_amount : Int
  up_to : Option Int
deriving DecidableEq

/-- A plan object as delivered by the processor API. -/
structure PlanPayload : Type where
  id : String
  amount : Int
  currency : String
  interval : String
  interval_count : Int
  name : String
  statement_descriptor : Option String
  trial_period_days : Option Int
  metadata : String
  billing_scheme : Option String
  tiers_mode : Option String
  tiers : List TierPayload
deriving DecidableEq

/-- A locally stored tier row (`models.Tier`). -/
structure TierRecord : Type where
  amount : Rat
  flat_amount : Rat
  up_to : Option Int
deriving DecidableEq

/-- A locally stored plan row (`models.Plan`), fields as written by the
`defaults` dict of `sync_plan`. -/
structure PlanRecord : Type where
  amount : Rat
  currency : String
  interval : String
  interval_count : Int
  name : String
  statement_descriptor : String
  trial_period_days : Option Int
  metadata : String
  billing_scheme : Option String
  tiers_mode : Option String
deriving DecidableEq

/-- A SKU object as delivered by the processor API. -/
structure SkuPayload : Type where
  id : String
  product : String
  price : Int
  currency : String
  attributes : Option String
  image : Option String
  inventory : String
  livemode : Bool
  metadata : Option String
  package_dimensions : Option String
  active : Bool
  updated : Option Int
deriving DecidableEq

/-- A locally stored SKU row (`models.Sku`); the same field set is
written by `sync_skus` and by `sync_sku_from_stripe_data`. -/
structure SkuRecord : Type where
  product : String
  price : Rat
  currency : String
  attributes : Option String
  image : Option String
  inventory : String
  livemode : Bool
  metadata : Option String
  package_dimensions : Option String
  active : Bool
  updated : Option Int
deriving DecidableEq

/-- The keyword-argument dict `sku_params` assembled by `skus.create`;
an absent key is `none`. -/
structure SkuParams : Type where
  product : String
  price : Rat
  inventory : String
  currency : String
  attributes : Option String
  image : Option String
  metadata : Option String
  package_dimensions : Option String
  active : Option Bool
deriving DecidableEq

/-- A subscription object as delivered by the processor API; only the
fields the invoice sync reads are modelled. -/
structure SubPayload : Type where
  id : String
  plan : Option String
deriving DecidableEq

/-- Modelled from the spec: a locally stored subscription row.  The
subscription model and its sync routine live in `subscriptions.py`,
which is not under src/; per the spec the Sync layer upserts local
entities from processor payloads, so the row mirrors the payload. -/
structure SubRecord : Type where
  stripe_id : String
  plan : Option String
deriving DecidableEq

/-- A charge object as delivered by the processor API; only the id is
needed by the invoice sync. -/
structure ChargePayload : Type where
  id : String
deriving DecidableEq

/-- Modelled from the spec: a locally stored charge row.  The charge
model and `charges.sync_charge` live in `charges.py`, which is not under
src/; only the invoice link written back by
`sync_invoice_from_stripe_data` is modelled. -/
structure ChargeRecord : Type where
  stripe_id : String
  invoice : Option String
deriving DecidableEq

/-- One invoice line item as delivered in `invoice["lines"]["data"]`. -/
structure ItemPayload : Type where
  id : String
  amount : Int
  currency : String
  proration : Bool
  description : Option String
  line_type : String
  plan : Option String
  period_start : Option Int
  period_end : Option Int
  quantity : Option Int
deriving DecidableEq

/-- A locally stored invoice line item row, fields as written by the
`defaults` dict of `sync_invoice_items`. -/
structure ItemRecord : Type where
  amount : Rat
  currency : String
  proration : Bool
  description : String
  line_type : String
  plan : Option String
  period_start : Option Int
  period_end : Option Int
  quantity : Option Int
  subscription : Option SubRecord
deriving DecidableEq

/-- An invoice object as delivered by the processor API. -/
structure InvoicePayload : Type where
  id : String
  customer : String
  attempted : Bool
  attempt_count : Int
  amount_due : Int
  closed : Bool
  paid : Bool
  period_end : Option Int
  period_start : Option Int
  subtotal : Int
  tax : Option Int
  tax_percent : Option Rat
  total : Int
  currency : String
  metadata : String
  date : Option Int
  charge : Option String
  subscription : Option String
  receipt_number : Option String
  lines : List ItemPayload
deriving DecidableEq

/-- A locally stored invoice row (`models.Invoice`), fields as written
by the `defaults` dict of `sync_invoice_from_stripe_data`.  Foreign keys
are held as the Stripe id of the target row, except the subscription,
which the item sync reads as an object and is therefore embedded. -/
structure InvoiceRecord : Type where
  stripe_id : String
  customer : String
  attempted : Bool
  attempt_count : Int
  amount_due : Rat
  closed : Bool
  paid : Bool
  period_end : Option Int
  period_start : Option Int
  subtotal : Rat
  tax : Option Rat
  tax_percent : Option Rat
  total : Rat
  currency : String
  metadata : String
  date : Option Int
  charge : Option String
  subscription : Option SubRecord
  receipt_number : String
deriving DecidableEq

/-- The processor oracle: the answers the SDK would give during one
call.  List and retrieve entries are pure reads of processor state. -/
structure Env : Type where
  listPlans : List PlanPayload
  listSkus : List SkuPayload
  retrieveSubscription : String → Option SubPayload
  retrieveCharge : String → ChargePayload
  createInvoice : String → Except StripeErr InvoicePayload
  payInvoice : String → Except StripeErr InvoicePayload
  retrieveInvoice : String → Except StripeErr InvoicePayload
  retrieveSku : String → Except StripeErr SkuPayload
  createSku : SkuParams → SkuPayload

/-- The local relational store: one table per mirrored model.
`invoiceItems` maps an invoice Stripe id to the association list of its
line item rows (empty list when the invoice has none). -/
structure DB : Type where
  products : List String
  customers : List String
  plans : Map PlanRecord
  planTiers : Map (List TierRecord)
  skus : Map SkuRecord
  subs : Map SubRecord
  invoices : Map InvoiceRecord
  invoiceItems : String → List (String × ItemRecord)
  charges : Map ChargeRecord

/-- The `defaults` dict of `sync_plan` in `actions/plans.py`. -/
def planDefaults (plan : PlanPayload) : PlanRecord :=
  { amount := convert_amount_for_db plan.amount plan.currency
    currency := pyOrS plan.currency ""
    interval := plan.interval
    interval_count := plan.interval_count
    name := plan.name
    statement_descriptor := pyOr plan.statement_descriptor ""
    trial_period_days := plan.trial_period_days
    metadata := plan.metadata
    billing_scheme := plan.billing_scheme
    tiers_mode := plan.tiers_mode }

/-- One `models.Tier.objects.create(...)` row of `sync_plan`. -/
def tierRecordOf (currency : String) (t : TierPayload) : TierRecord :=
  { amount := convert_amount_for_db t.amount currency
    flat_amount := convert_amount_for_db t.flat_amount currency
    up_to := t.up_to }

/-- `sync_plan` of `actions/plans.py`: upsert the plan row keyed by the
payload id, then, when the payload carries tiers, delete all tier rows
of the plan and recreate them from the payload. -/
def sync_plan (db : DB) (plan : PlanPayload) : DB :=
  let defaults := planDefaults plan
  let db1 := { db with plans := db.plans.set plan.id defaults }
  if plan.tiers.isEmpty then db1
  else { db1 with planTiers := db1.planTiers.set plan.id (plan.tiers.map (tierRecordOf plan.currency)) }

/-- `sync_plans` of `actions/plans.py`: one paged read of all plans from
the processor, then `sync_plan` on each. -/
def sync_plans (env : Env) (db : DB) : DB × List StripeCall :=
  (env.listPlans.foldl sync_plan db, [StripeCall.planList])

/-- The row written for a SKU payload; the assignment list of
`sync_sku_from_stripe_data` and the `defaults` dict of `sync_skus` write
the same field set. -/
def skuDataRecord (s : SkuPayload) : SkuRecord :=
  { product := s.product
    price := convert_amount_for_db s.price s.currency
    currency := s.currency
    attributes := s.attributes
    image := s.image
    inventory := s.inventory
    livemode := s.livemode
    metadata := s.metadata
    package_dimensions := s.package_dimensions
    active := s.active
    updated := convert_tstamp s.updated }

/-- `sync_sku_from_stripe_data` of `actions/skus.py`:
`Product.objects.get` (raising `DoesNotExist` when the product is not
mirrored), then get-or-create the SKU row and overwrite every field from
the payload. -/
def sync_sku_from_stripe_data (db : DB) (stripe_sku : SkuPayload) : Except SyncErr (DB × SkuRecord) :=
  if db.products.contains stripe_sku.product then
    let r := skuDataRecord stripe_sku
    .ok ({ db with skus := db.skus.set stripe_sku.id r }, r)
  else .error (.doesNotExist "Product")

/-- The loop body of `sync_skus` of `actions/skus.py`: the same product
lookup and upsert, written with its own `defaults` dict in the source. -/
def syncSkusStep (db : DB) (stripe_sku : SkuPayload) : Except SyncErr DB :=
  if db.products.contains stripe_sku.product then
    .ok { db with skus := db.skus.set stripe_sku.id (skuDataRecord stripe_sku) }
  else .error (.doesNotExist "Product")

/-- `sync_skus` of `actions/skus.py`: one paged read of all SKUs from
the processor, then the upsert loop; the `AttributeError` fallback in
the source chooses between two read calls and is modelled as the single
list read. -/
def sync_skus (env : Env) (db : DB) : Except SyncErr DB × List StripeCall :=
  (env.listSkus.foldlM syncSkusStep db, [StripeCall.skuList])

/-- The subscription row mirrored from a subscription payload. -/
def subRecordOf (sp : SubPayload) : SubRecord :=
  { stripe_id := sp.id, plan := sp.plan }

/-- Modelled from the spec:
`subscriptions.sync_subscription_from_stripe_data` lives in
`subscriptions.py`, which is not under src/; per the spec the Sync layer
upserts the local subscription row from the processor payload and
returns it. -/
def sync_subscription_from_stripe_data (db : DB) (sp : SubPayload) : DB × SubRecord :=
  let r := subRecordOf sp
  ({ db with subs := db.subs.set sp.id r }, r)

/-- Modelled from the spec: `charges.sync_charge` lives in `charges.py`,
which is not under src/; it retrieves the charge from the processor (a
read) and upserts the local charge row. -/
def sync_charge (env : Env) (db : DB) (charge_id : String) : DB × ChargeRecord × List StripeCall :=
  let cp := env.retrieveCharge charge_id
  let r : ChargeRecord := { stripe_id := cp.id, invoice := none }
  ({ db with charges := db.charges.set cp.id r }, r, [StripeCall.chargeRetrieve charge_id])

/-- The test `invoice.subscription and invoice.subscription.stripe_id ==
item["id"]` of `sync_invoice_items`. -/
def invSubMatches (invoice : InvoiceRecord) (item : ItemPayload) : Bool :=
  match invoice.subscription with
  | some s => s.stripe_id == item.id
  | none => false

/-- The subscription row a line item of `sync_invoice_items` ends up
linked to: the invoice subscription when it matches the item id,
otherwise the subscription retrieved from the processor (when found). -/
def itemSubscriptionOf (env : Env) (invoice : InvoiceRecord) (item : ItemPayload) : Option SubRecord :=
  if item.line_type = "subscription" then
    if invSubMatches invoice item then invoice.subscription
    else
      match env.retrieveSubscription item.id with
      | some sp => some (subRecordOf sp)
      | none => none
  else none

/-- The write to the subscriptions table a line item of
`sync_invoice_items` performs, if any. -/
def itemSubWrite (env : Env) (invoice : InvoiceRecord) (item : ItemPayload) : Option (String × SubRecord) :=
  if item.line_type = "subscription" then
    if invSubMatches invoice item then none
    else
      match env.retrieveSubscription item.id with
      | some sp => some (sp.id, subRecordOf sp)
      | none => none
  else none

/-- The processor call a line item of `sync_invoice_items` issues, if
any: only the subscription retrieval read. -/
def itemCall (invoice : InvoiceRecord) (item : ItemPayload) : Option StripeCall :=
  if item.line_type = "subscription" then
    if invSubMatches invoice item then none
    else some (StripeCall.subscriptionRetrieve item.id)
  else none

/-- The line item row written for a payload item: the `defaults` dict of
`sync_invoice_items`, including the plan lookup with its
`Plan.DoesNotExist` fallback and the subscription-plan fallback. -/
def itemRecordOf (env : Env) (plans : Map PlanRecord) (invoice : InvoiceRecord) (item : ItemPayload) : ItemRecord :=
  let planId : Option String :=
    match item.plan with
    | some pid => if (plans pid).isSome then some pid else none
    | none => none
  let item_subscription := itemSubscriptionOf env invoice item
  let plan2 : Option String :=
    match planId with
    | some p => some p
    | none =>
      match item_subscription with
      | some s => s.plan
      | none => none
  { amount := convert_amount_for_db item.amount item.currency
    currency := item.currency
    proration := item.proration
    description := pyOr item.description ""
    line_type := item.line_type
    plan := plan2
    period_start := convert_tstamp item.period_start
    period_end := convert_tstamp item.period_end
    quantity := item.quantity
    subscription := item_subscription }

/-- The body of the `for item in items` loop of `sync_invoice_items`:
plan lookup, subscription resolution (possibly retrieving from the
processor and upserting the local subscription row), then get-or-create
of the line item row keyed by the item id. -/
def syncOneItem (env : Env) (invoice : InvoiceRecord) (db : DB) (item : ItemPayload) : DB × List StripeCall :=
  let planId : Option String :=
    match item.plan with
    | some pid => if (db.plans pid).isSome then some pid else none
    | none => none
  let subStep : DB × Option SubRecord × List StripeCall :=
    if item.line_type = "subscription" then
      if invSubMatches invoice item then (db, invoice.subscription, [])
      else
        match env.retrieveSubscription item.id with
        | some sp =>
          let r := sync_subscription_from_stripe_data db sp
          (r.1, some r.2, [StripeCall.subscriptionRetrieve item.id])
        | none => (db, none, [StripeCall.subscriptionRetrieve item.id])
    else (db, none, [])
  let db1 := subStep.1
  let item_subscription := subStep.2.1
  let plan2 : Option String :=
    match planId with
    | some p => some p
    | none =>
      match item_subscription with
      | some s => s.plan
      | none => none
  let defaults : ItemRecord :=
    { amount := convert_amount_for_db item.amount item.currency
      currency := item.currency
      proration := item.proration
      description := pyOr item.description ""
      line_type := item.line_type
      plan := plan2
      period_start := convert_tstamp item.period_start
      period_end := convert_tstamp item.period_end
      quantity := item.quantity
      subscription := item_subscription }
  ({ db1 with invoiceItems := fun k =>
      if k = invoice.stripe_id then upsertA (db1.invoiceItems invoice.stripe_id) item.id defaults
      else db1.invoiceItems k },
   subStep.2.2)

/-- Fold step of `sync_invoice_items`: thread the store and accumulate
the processor calls. -/
def syncItemStep (env : Env) (invoice : InvoiceRecord) (acc : DB × List StripeCall) (item : ItemPayload) : DB × List StripeCall :=
  let r := syncOneItem env invoice acc.1 item
  (r.1, acc.2 ++ r.2)

/-- `sync_invoice_items` of `actions/invoices.py`: delete every existing
line item of the invoice, then upsert one row per payload item. -/
def sync_invoice_items (env : Env) (db : DB) (invoice : InvoiceRecord) (items : List ItemPayload) : DB × List StripeCall :=
  let db0 := { db with invoiceItems := fun k =>
    if k = invoice.stripe_id then [] else db.invoiceItems k }
  items.foldl (syncItemStep env invoice) (db0, [])

/-- The `defaults` dict of `sync_invoice_from_stripe_data`. -/
def invoiceDefaults (stripe_invoice : InvoicePayload) (charge : Option String) (subscription : Option SubRecord) : InvoiceRecord :=
  { stripe_id := stripe_invoice.id
    customer := stripe_invoice.customer
    attempted := stripe_invoice.attempted
    attempt_count := stripe_invoice.attempt_count
    amount_due := convert_amount_for_db stripe_invoice.amount_due stripe_invoice.currency
    closed := stripe_invoice.closed
    paid := stripe_invoice.paid
    period_end := convert_tstamp stripe_invoice.period_end
    period_start := convert_tstamp stripe_invoice.period_start
    subtotal := convert_amount_for_db stripe_invoice.subtotal stripe_invoice.currency
    tax := stripe_invoice.tax.map (fun t => convert_amount_for_db t stripe_invoice.currency)
    tax_percent := stripe_invoice.tax_percent
    total := convert_amount_for_db stripe_invoice.total stripe_invoice.currency
    currency := stripe_invoice.currency
    metadata := stripe_invoice.metadata
    date := convert_tstamp stripe_invoice.date
    charge := charge
    subscription := subscription
    receipt_number := pyOr stripe_invoice.receipt_number "" }

/-- `sync_invoice_from_stripe_data` of `actions/invoices.py`: look up
the mirrored customer (raising `DoesNotExist` when absent), sync the
charge when the payload names one, retrieve and sync the subscription
when the payload names one, upsert the invoice row, write the invoice
link back onto the charge row, and sync the line items.  The receipt
hook is an email side effect and touches neither the store nor the
processor, so it is not modelled. -/
def sync_invoice_from_stripe_data (env : Env) (db : DB) (stripe_invoice : InvoicePayload) (send_receipt : Bool) : Except SyncErr (DB × InvoiceRecord) × List StripeCall :=
  let _ := send_receipt
  if db.customers.contains stripe_invoice.customer then
    let chargeStep : DB × Option ChargeRecord × List StripeCall :=
      match pyStrOpt stripe_invoice.charge with
      | some cid =>
        let r := sync_charge env db cid
        (r.1, some r.2.1, r.2.2)
      | none => (db, none, [])
    let db1 := chargeStep.1
    let subStep : DB × Option SubRecord × List StripeCall :=
      match pyStrOpt stripe_invoice.subscription with
      | some sid =>
        match env.retrieveSubscription sid with
        | some sp =>
          let r := sync_subscription_from_stripe_data db1 sp
          (r.1, some r.2, [StripeCall.subscriptionRetrieve sid])
        | none => (db1, none, [StripeCall.subscriptionRetrieve sid])
      | none => (db1, none, [])
    let db2 := subStep.1
    let invoice := invoiceDefaults stripe_invoice (chargeStep.2.1.map (fun c => c.stripe_id)) subStep.2.1
    let db3 := { db2 with invoices := db2.invoices.set stripe_invoice.id invoice }
    let db4 :=
      match chargeStep.2.1 with
      | some ch => { db3 with charges := db3.charges.set ch.stripe_id { stripe_id := ch.stripe_id, invoice := some stripe_invoice.id } }
      | none => db3
    let itemsStep := sync_invoice_items env db4 invoice stripe_invoice.lines
    (.ok (itemsStep.1, invoice), chargeStep.2.2 ++ subStep.2.2 ++ itemsStep.2)
  else (.error (.doesNotExist "Customer"), [])

namespace Invoices

/-- `create` of `actions/invoices.py`: a single processor create call
whose response is returned as-is; the local store is not touched (the
source notes in a TODO that syncing is left to the webhook). -/
def create (env : Env) (db : DB) (customer : String) : Except StripeErr InvoicePayload × DB × List StripeCall :=
  (env.createInvoice customer, db, [StripeCall.invoiceCreate customer])

/-- `retrieve` of `actions/invoices.py`: empty id short-circuits to
`None`; an invalid-request error whose message mentions `No such
invoice` is swallowed to `None`; every other error propagates. -/
def retrieve (env : Env) (invoice_id : String) : Except StripeErr (Option InvoicePayload) × List StripeCall :=
  if invoice_id = "" then (.ok none, [])
  else
    match env.retrieveInvoice invoice_id with
    | .ok v => (.ok (some v), [StripeCall.invoiceRetrieve invoice_id])
    | .error (.invalidRequest m) =>
      (if containsSub m "No such invoice" then .ok none
       else .error (.invalidRequest m), [StripeCall.invoiceRetrieve invoice_id])
    | .error e => (.error e, [StripeCall.invoiceRetrieve invoice_id])

/-- The `except stripe.InvalidRequestError` handler of
`create_and_pay`: an invalid-request error whose message ends with
`Nothing to invoice for customer` becomes the return value `False`;
everything else is re-raised. -/
def nothingToInvoice (e : StripeErr) : Except StripeErr Bool :=
  match e with
  | .invalidRequest m =>
    if pyEndsWith m "Nothing to invoice for customer" then .ok false
    else .error (.invalidRequest m)
  | e => .error e

/-- `create_and_pay` of `actions/invoices.py`: create an invoice, pay
it on the processor when its amount due is positive, and return `True`;
errors go through the `Nothing to invoice for customer` handler.  No
local sync is performed. -/
def create_and_pay (env : Env) (db : DB) (customer : String) : Except StripeErr Bool × DB × List StripeCall :=
  let c := create env db customer
  match c.1 with
  | .error e => (nothingToInvoice e, db, c.2.2)
  | .ok invoice =>
    if invoice.amount_due > 0 then
      match env.payInvoice invoice.id with
      | .error e => (nothingToInvoice e, db, c.2.2 ++ [StripeCall.invoicePay invoice.id])
      | .ok _ => (.ok true, db, c.2.2 ++ [StripeCall.invoicePay invoice.id])
    else (.ok true, db, c.2.2)

/-- `pay` of `actions/invoices.py`: when the invoice is neither paid
nor closed, pay it on the processor and sync the response back into the
store, returning `True`; otherwise return `False` without touching
anything. -/
def pay (env : Env) (db : DB) (invoice : InvoiceRecord) (send_receipt : Bool) : Except (Sum StripeErr SyncErr) (Bool × DB) × List StripeCall :=
  if !invoice.paid && !invoice.closed then
    match env.payInvoice invoice.stripe_id with
    | .ok stripe_invoice =>
      let s := sync_invoice_from_stripe_data env db stripe_invoice send_receipt
      match s.1 with
      | .ok r => (.ok (true, r.1), StripeCall.invoicePay invoice.stripe_id :: s.2)
      | .error e => (.error (.inr e), StripeCall.invoicePay invoice.stripe_id :: s.2)
    | .error e => (.error (.inl e), [StripeCall.invoicePay invoice.stripe_id])
  else (.ok (false, db), [])

end Invoices

/-- The keys present in a `sku_params` dict, in update order. -/
def SkuParams.keys (p : SkuParams) : List String :=
  ["product", "price", "inventory", "currency"]
    ++ (if p.attributes.isSome then ["attributes"] else [])
    ++ (if p.image.isSome then ["image"] else [])
    ++ (if p.metadata.isSome then ["metadata"] else [])
    ++ (if p.package_dimensions.isSome then ["package_dimensions"] else [])
    ++ (if p.active.isSome then ["active"] else [])

namespace Skus

/-- The `sku_params` dict assembled by `create` of `actions/skus.py`:
the four mandatory keys, then each optional key added only when its
argument is truthy, and `active` added only when `active` is truthy. -/
def createParams (product : String) (price : Rat) (inventory : String) (currency : String) (attributes image metadata package_dimensions : Option String) (active : Bool) : SkuParams :=
  let sku_params : SkuParams :=
    { product := product
      price := convert_amount_for_api price currency
      inventory := inventory
      currency := currency
      attributes := none
      image := none
      metadata := none
      package_dimensions := none
      active := none }
  let sku_params := if (pyStrOpt attributes).isSome then { sku_params with attributes := attributes } else sku_params
  let sku_params := if (pyStrOpt image).isSome then { sku_params with image := image } else sku_params
  let sku_params := if (pyStrOpt metadata).isSome then { sku_params with metadata := metadata } else sku_params
  let sku_params := if (pyStrOpt package_dimensions).isSome then { sku_params with package_dimensions := package_dimensions } else sku_params
  if active then { sku_params with active := some active } else sku_params

/-- `create` of `actions/skus.py`: assemble `sku_params`, create the
SKU on the processor, and sync the response into the local store before
returning. -/
def create (env : Env) (db : DB) (product : String) (price : Rat) (inventory : String) (currency : String) (attributes image metadata package_dimensions : Option String) (active : Bool) : Except SyncErr (DB × SkuRecord) × List StripeCall :=
  let sku_params := createParams product price inventory currency attributes image metadata package_dimensions active
  let stripe_sku := env.createSku sku_params
  (sync_sku_from_stripe_data db stripe_sku, [StripeCall.skuCreate])

/-- `retrieve` of `actions/skus.py`: empty id short-circuits to `None`;
an invalid-request error whose message mentions `No such sku` is
swallowed to `None`; every other error propagates. -/
def retrieve (env : Env) (sku_id : String) : Except StripeErr (Option SkuPayload) × List StripeCall :=
  if sku_id = "" then (.ok none, [])
  else
    match env.retrieveSku sku_id with
    | .ok s => (.ok (some s), [StripeCall.skuRetrieve sku_id])
    | .error (.invalidRequest m) =>
      (if containsSub m "No such sku" then .ok none
       else .error (.invalidRequest m), [StripeCall.skuRetrieve sku_id])
    | .error e => (.error e, [StripeCall.skuRetrieve sku_id])

end Skus

/-- A webhook delivery payload: the decoded JSON body of the request. -/
structure EventData : Type where
  id : String
  kind : String
  livemode : Bool
  raw : String
deriving DecidableEq

/-- A row of the `Event` table of the `payments` app. -/
structure EventRecord : Type where
  stripe_id : String
  kind : String
  livemode : Bool
  webhook_message : String
deriving DecidableEq

/-- A row of the `EventProcessingException` table of the `payments`
app. -/
structure ExceptionRecord : Type where
  data : String
  message : String
  traceback : String
deriving DecidableEq

/-- An observable effect of a webhook delivery.  `validated` and
`processed` stand for `event.validate()` and `event.process()`, whose
bodies live in `payments/models.py`, not under src/; modelled from the
spec as the per-event steps driving the webhook-event syncs. -/
inductive WebhookEffect : Type
  | createdEvent (id : String)
  | validated (id : String)
  | processed (id : String)
  | createdException (message : String)
deriving DecidableEq

/-- The tables the webhook endpoint touches. -/
structure WebhookState : Type where
  events : List EventRecord
  exceptions : List ExceptionRecord
deriving DecidableEq

/-- `webhook` of `payments/views.py`: when an `Event` row with the
delivered id already exists, record only an
`EventProcessingException` with message `Duplicate event record`;
otherwise create the `Event` row, validate it and process it. -/
def webhook (st : WebhookState) (data : EventData) : WebhookState × List WebhookEffect :=
  if st.events.any (fun e => e.stripe_id == data.id) then
    ({ st with exceptions := st.exceptions ++ [{ data := data.raw, message := "Duplicate event record", traceback := "" }] },
     [WebhookEffect.createdException "Duplicate event record"])
  else
    let event : EventRecord :=
      { stripe_id := data.id, kind := data.kind, livemode := data.livemode, webhook_message := data.raw }
    ({ st with events := st.events ++ [event] },
     [WebhookEffect.createdEvent data.id, WebhookEffect.validated data.id, WebhookEffect.processed data.id])

/-! Concrete fixtures used by the witness theorems. -/

/-- A concrete invoice payload: positive amount due, already paid on the
processor, no charge, no subscription, no line items. -/
def spW : InvoicePayload :=
  { id := "in_1", customer := "cus_1", attempted := true, attempt_count := 1,
    amount_due := 500, closed := false, paid := true,
    period_end := some 200, period_start := some 100, subtotal := 500,
    tax := none, tax_percent := none, total := 500, currency := "usd",
    metadata := "", date := some 150, charge := none, subscription := none,
    receipt_number := none, lines := [] }

/-- The payload `spW` with nothing due. -/
def spW0 : InvoicePayload := { spW with amount_due := 0 }

/-- A concrete SKU payload. -/
def skuPW : SkuPayload :=
  { id := "sku_1", product := "prod_1", price := 500, currency := "usd",
    attributes := none, image := none, inventory := "finite 1",
    livemode := false, metadata := none, package_dimensions := none,
    active := true, updated := none }

/-- The payload `skuPW` with a different price. -/
def skuPW2 : SkuPayload := { skuPW with price := 700 }

/-- A concrete plan payload without tiers. -/
def planPW : PlanPayload :=
  { id := "plan_1", amount := 2000, currency := "usd", interval := "month",
    interval_count := 1, name := "Pro", statement_descriptor := none,
    trial_period_days := none, metadata := "", billing_scheme := none,
    tiers_mode := none, tiers := [] }

/-- The payload `planPW` with other values and one tier. -/
def planPWB : PlanPayload :=
  { planPW with
    amount := 3000
    name := "Pro v2"
    tiers := [{ amount := 100, flat_amount := 0, up_to := some 10 }] }

/-- A plain (non-subscription) line item payload. -/
def itemW1 : ItemPayload :=
  { id := "ii_1", amount := 500, currency := "usd", proration := false,
    description := some "line one", line_type := "invoiceitem", plan := none,
    period_start := some 1, period_end := some 2, quantity := some 1 }

/-- A subscription line item payload. -/
def itemW2 : ItemPayload :=
  { id := "sub_1", amount := 2000, currency := "usd", proration := false,
    description := none, line_type := "subscription", plan := some "plan_1",
    period_start := some 1, period_end := some 2, quantity := some 1 }

/-- A local store mirroring one product and one customer. -/
def dbW : DB :=
  { products := ["prod_1"], customers := ["cus_1"], plans := Map.empty,
    planTiers := Map.empty, skus := Map.empty, subs := Map.empty,
    invoices := Map.empty, invoiceItems := fun _ => [], charges := Map.empty }

/-- The store `dbW` after the SKU payload `skuPW` has been synced. -/
def dbW1 : DB := { dbW with skus := dbW.skus.set "sku_1" (skuDataRecord skuPW) }

/-- The store `dbW1` after the SKU payload `skuPW2` has been synced. -/
def dbW2 : DB := { dbW1 with skus := dbW1.skus.set "sku_1" (skuDataRecord skuPW2) }

/-- The local invoice row mirrored from `spW`. -/
def invW : InvoiceRecord := invoiceDefaults spW none none

/-- The row `invW` not yet paid and not closed. -/
def invW2 : InvoiceRecord := { invW with paid := false, closed := false }

/-- The store `dbW` after `spW` has been synced: the invoice row is
written and the line item list of the invoice is cleared. -/
def dbWpaid : DB :=
  { dbW with
    invoices := dbW.invoices.set "in_1" (invoiceDefaults spW none none)
    invoiceItems := fun k => if k = "in_1" then [] else dbW.invoiceItems k }

/-- A processor oracle whose answers are the fixtures above; retrievals
of unknown invoices and SKUs fail with not-found messages. -/
def envW : Env :=
  { listPlans := [], listSkus := [],
    retrieveSubscription := fun _ => none,
    retrieveCharge := fun cid => { id := cid },
    createInvoice := fun _ => .ok spW,
    payInvoice := fun _ => .ok spW,
    retrieveInvoice := fun _ => .error (.invalidRequest "No such invoice: in_x"),
    retrieveSku := fun _ => .error (.invalidRequest "No such sku: sku_x"),
    createSku := fun _ => skuPW }

/-- The oracle `envW` failing retrievals with unrelated invalid-request
messages. -/
def envW2 : Env :=
  { envW with
    retrieveInvoice := fun _ => .error (.invalidRequest "Bad request"),
    retrieveSku := fun _ => .error (.invalidRequest "Bad request") }

/-- The oracle `envW` failing retrievals with non-invalid-request
errors. -/
def envW3 : Env :=
  { envW with
    retrieveInvoice := fun _ => .error (.otherError "connection reset"),
    retrieveSku := fun _ => .error (.otherError "connection reset") }

/-- The oracle `envW` rejecting invoice creation because there is
nothing to invoice. -/
def envW4 : Env :=
  { envW with createInvoice := fun _ => .error (.invalidRequest "Customer cus_1: Nothing to invoice for customer") }

/-- The oracle `envW` rejecting invoice creation with an unrelated
invalid-request message. -/
def envW5 : Env :=
  { envW with createInvoice := fun _ => .error (.invalidRequest "Invalid customer id") }

/-- The oracle `envW` rejecting the pay call because there is nothing to
invoice. -/
def envW6 : Env :=
  { envW with payInvoice := fun _ => .error (.invalidRequest "Customer cus_1: Nothing to invoice for customer") }

/-- The oracle `envW` creating an invoice with nothing due. -/
def envW7 : Env :=
  { envW with createInvoice := fun _ => .ok spW0 }

/-- The oracle `envW` answering subscription retrievals for `sub_1`. -/
def envW8 : Env :=
  { envW with retrieveSubscription := fun sid =>
      if sid = "sub_1" then some { id := "sub_1", plan := some "plan_1" } else none }

/-- The oracle `envW` answering retrievals successfully. -/
def envW9 : Env :=
  { envW with
    retrieveInvoice := fun _ => .ok spW
    retrieveSku := fun _ => .ok skuPW }

/-- A concrete webhook delivery. -/
def evD : EventData :=
  { id := "evt_1", kind := "invoice.created", livemode := false, raw := "payload" }

/-- The empty webhook store. -/
def wstEmpty : WebhookState := { events := [], exceptions := [] }

/-- The webhook store after one delivery of `evD`. -/
def wstDup : WebhookState := (webhook wstEmpty evD).1

/-! Helper lemmas about the table model. -/

theorem Map.set_self {α : Type} (m : Map α) (k : String) (v : α) :
    (m.set k v) k = some v := by
  simp [Map.set]

theorem Map.set_set {α : Type} (m : Map α) (k : String) (v w : α) :
    (m.set k v).set k w = m.set k w := by
  funext q
  by_cases h : q = k <;> simp [Map.set, h]

theorem applySets_cons {α : Type} (kv : String × α) (us : List (String × α)) (m : Map α) :
    applySets (kv :: us) m = applySets us (m.set kv.1 kv.2) := rfl

theorem applySets_eval {α : Type} (us : List (String × α)) (m : Map α) (k : String) :
    applySets us m k =
      match assocLast us k with
      | some v => some v
      | none => m k := by
  induction us generalizing m with
  | nil => rfl
  | cons kv t ih =>
    rw [applySets_cons, ih]
    cases h : assocLast t k with
    | some v => simp [assocLast, h]
    | none =>
      by_cases hk : kv.1 = k
      · subst hk
        simp [assocLast, h, Map.set]
      · have hk2 : ¬(k = kv.1) := fun hh => hk hh.symm
        simp [assocLast, h, hk, hk2, Map.set]

theorem applySets_idem {α : Type} (us : List (String × α)) (m : Map α) :
    applySets us (applySets us m) = applySets us m := by
  funext k
  rw [applySets_eval, applySets_eval]
  cases h : assocLast us k <;> rfl

theorem lookupA_append {α : Type} (l1 l2 : List (String × α)) (k : String) :
    lookupA (l1 ++ l2) k =
      match lookupA l1 k with
      | some v => some v
      | none => lookupA l2 k := by
  induction l1 with
  | nil => rfl
  | cons kv t ih =>
    cases h : (kv.1 == k) <;> simp [lookupA, h, ih]

theorem lookupA_of_not_mem {α : Type} (us : List (String × α)) (k : String)
    (h : ∀ kv ∈ us, kv.1 ≠ k) : lookupA us k = none := by
  induction us with
  | nil => rfl
  | cons kv t ih =>
    have hk : (kv.1 == k) = false := by
      simp [h kv (by simp)]
    simp [lookupA, hk]
    exact ih (fun kv2 hm => h kv2 (by simp [hm]))

theorem lookupA_keyed {α : Type} (us : List (String × α)) (k : String) (v : α)
    (h : (us.map Prod.fst).Nodup) (hm : (k, v) ∈ us) : lookupA us k = some v := by
  induction us with
  | nil => cases hm
  | cons kv t ih =>
    rcases List.mem_cons.mp hm with he | ht
    · subst he
      simp [lookupA]
    · have hk : kv.1 ≠ k := by
        intro hh
        have : kv.1 ∈ t.map Prod.fst := by
          subst hh
          exact List.mem_map.mpr ⟨(kv.1, v), ht, rfl⟩
        exact (List.nodup_cons.mp h).1 this
      have hkb : (kv.1 == k) = false := by simp [hk]
      simp [lookupA, hkb]
      exact ih (List.nodup_cons.mp h).2 ht

theorem upsertA_of_none {α : Type} (l : List (String × α)) (k : String) (v : α)
    (h : lookupA l k = none) : upsertA l k v = l ++ [(k, v)] := by
  simp [upsertA, h]

theorem applyUpsA_cons {α : Type} (l : List (String × α)) (kv : String × α) (us : List (String × α)) :
    applyUpsA l (kv :: us) = applyUpsA (upsertA l kv.1 kv.2) us := rfl

theorem applyUpsA_fresh {α : Type} (us : List (String × α)) :
    ∀ l : List (String × α), (∀ kv ∈ us, lookupA l kv.1 = none) →
      (us.map Prod.fst).Nodup → applyUpsA l us = l ++ us := by
  induction us with
  | nil =>
    intro l _ _
    simp [applyUpsA]
  | cons kv t ih =>
    intro l hl hn
    rw [applyUpsA_cons, upsertA_of_none _ _ _ (hl kv (by simp))]
    have hfresh : ∀ kv2 ∈ t, lookupA (l ++ [(kv.1, kv.2)]) kv2.1 = none := by
      intro kv2 hm
      rw [lookupA_append, hl kv2 (by simp [hm])]
      have hne : kv.1 ≠ kv2.1 := by
        intro hh
        have : kv.1 ∈ t.map Prod.fst := by
          rw [hh]
          exact List.mem_map.mpr ⟨kv2, hm, rfl⟩
        exact (List.nodup_cons.mp hn).1 this
      have : (kv.1 == kv2.1) = false := by simp [hne]
      simp [lookupA, this]
    rw [ih (l ++ [(kv.1, kv.2)]) hfresh (List.nodup_cons.mp hn).2]
    simp

/-! Characterization of the `sync_invoice_items` loop. -/

theorem syncOneItem_eq (env : Env) (inv : InvoiceRecord) (db : DB) (item : ItemPayload) :
    syncOneItem env inv db item =
      ({ db with
          subs := applyOptSet db.subs (itemSubWrite env inv item)
          invoiceItems := fun k =>
            if k = inv.stripe_id then
              upsertA (db.invoiceItems inv.stripe_id) item.id (itemRecordOf env db.plans inv item)
            else db.invoiceItems k },
       (itemCall inv item).toList) := by
  by_cases h1 : item.line_type = "subscription"
  · cases h2 : invSubMatches inv item with
    | false =>
      cases h3 : env.retrieveSubscription item.id with
      | none =>
        simp [syncOneItem, itemSubWrite, itemCall, itemRecordOf, itemSubscriptionOf, h1, h2, h3,
          applyOptSet]
      | some sp =>
        simp [syncOneItem, itemSubWrite, itemCall, itemRecordOf, itemSubscriptionOf, h1, h2, h3,
          applyOptSet, sync_subscription_from_stripe_data]
    | true =>
      simp [syncOneItem, itemSubWrite, itemCall, itemRecordOf, itemSubscriptionOf, h1, h2,
        applyOptSet]
  · simp [syncOneItem, itemSubWrite, itemCall, itemRecordOf, itemSubscriptionOf, h1, applyOptSet]

theorem syncItems_foldl_calls (env : Env) (inv : InvoiceRecord) (items : List ItemPayload) :
    ∀ (db : DB) (c : List StripeCall),
      (items.foldl (syncItemStep env inv) (db, c)).2 =
        c ++ items.filterMap (fun it => itemCall inv it) := by
  induction items with
  | nil =>
    intro db c
    simp
  | cons it t ih =>
    intro db c
    rw [List.foldl_cons]
    have hstep : syncItemStep env inv (db, c) it =
        ((syncOneItem env inv db it).1, c ++ (syncOneItem env inv db it).2) := rfl
    rw [hstep, ih, syncOneItem_eq]
    cases h3 : itemCall inv it <;> simp [List.filterMap_cons, h3]

theorem syncItems_foldl_state (env : Env) (inv : InvoiceRecord) (items : List ItemPayload) :
    ∀ (db : DB) (c : List StripeCall),
      (items.foldl (syncItemStep env inv) (db, c)).1 =
        { db with
          subs := applySets (items.filterMap (itemSubWrite env inv)) db.subs
          invoiceItems := fun k =>
            if k = inv.stripe_id then
              applyUpsA (db.invoiceItems inv.stripe_id)
                (items.map (fun it => (it.id, itemRecordOf env db.plans inv it)))
            else db.invoiceItems k } := by
  induction items with
  | nil =>
    intro db c
    have hfun : (fun k => if k = inv.stripe_id then db.invoiceItems inv.stripe_id else db.invoiceItems k) = db.invoiceItems := by
      funext k
      by_cases h : k = inv.stripe_id <;> simp [h]
    simp [applySets, applyUpsA, hfun]
  | cons it t ih =>
    intro db c
    rw [List.foldl_cons]
    have hstep : syncItemStep env inv (db, c) it =
        ((syncOneItem env inv db it).1, c ++ (syncOneItem env inv db it).2) := rfl
    rw [hstep, ih, syncOneItem_eq]
    simp only [List.filterMap_cons, List.map_cons]
    congr 1
    · cases h : itemSubWrite env inv it <;> simp [h, applyOptSet, applySets_cons]
    · funext k
      by_cases hk : k = inv.stripe_id <;> simp [hk, applyUpsA_cons]

theorem sync_invoice_items_state (env : Env) (db : DB) (inv : InvoiceRecord) (items : List ItemPayload) :
    (sync_invoice_items env db inv items).1 =
      { db with
        subs := applySets (items.filterMap (itemSubWrite env inv)) db.subs
        invoiceItems := fun k =>
          if k = inv.stripe_id then
            applyUpsA [] (items.map (fun it => (it.id, itemRecordOf env db.plans inv it)))
          else db.invoiceItems k } := by
  unfold sync_invoice_items
  rw [syncItems_foldl_state]
  congr 1
  funext k
  by_cases hk : k = inv.stripe_id <;> simp [hk]

theorem sync_invoice_items_calls (env : Env) (db : DB) (inv : InvoiceRecord) (items : List ItemPayload) :
    (sync_invoice_items env db inv items).2 =
      items.filterMap (fun it => itemCall inv it) := by
  unfold sync_invoice_items
  rw [syncItems_foldl_calls]
  simp

theorem itemCall_not_write (inv : InvoiceRecord) (it : ItemPayload) (c : StripeCall)
    (h : itemCall inv it = some c) : c.isWrite = false := by
  unfold itemCall at h
  by_cases h1 : it.line_type = "subscription"
  · rw [if_pos h1] at h
    cases h2 : invSubMatches inv it <;> rw [h2] at h
    · cases h
      rfl
    · simp at h
  · rw [if_neg h1] at h
    simp at h

theorem sync_plan_plans (db : DB) (p : PlanPayload) :
    (sync_plan db p).plans = db.plans.set p.id (planDefaults p) := by
  by_cases h : p.tiers.isEmpty <;> simp [sync_plan, h]

/-- C1: for every plan, SKU, or invoice line-item payload, running the
corresponding sync routine (`sync_plan`, `sync_sku_from_stripe_data`,
`sync_invoice_items`) twice in a row with the same payload leaves the
local store in the same state as running it once. -/
theorem claim_C1_sync_idempotent :
    (∀ (db : DB) (p : PlanPayload), sync_plan (sync_plan db p) p = sync_plan db p) ∧
    (∀ (db db1 : DB) (r : SkuRecord) (s : SkuPayload),
      sync_sku_from_stripe_data db s = .ok (db1, r) →
      sync_sku_from_stripe_data db1 s = .ok (db1, r)) ∧
    (∀ (env : Env) (db : DB) (inv : InvoiceRecord) (items : List ItemPayload),
      (sync_invoice_items env ((sync_invoice_items env db inv items).1) inv items).1 =
        (sync_invoice_items env db inv items).1) := by
  refine ⟨?_, ?_, ?_⟩
  · intro db p
    by_cases h : p.tiers.isEmpty <;> simp [sync_plan, h, Map.set_set]
  · intro db db1 r s h
    unfold sync_sku_from_stripe_data at h ⊢
    by_cases hp : s.product ∈ db.products
    · simp [hp] at h
      obtain ⟨hdb, hr⟩ := h
      subst hdb
      subst hr
      simp [hp, Map.set_set]
    · simp [hp] at h
  · intro env db inv items
    conv_rhs => rw [sync_invoice_items_state]
    rw [sync_invoice_items_state, sync_invoice_items_state]
    congr 1
    · exact applySets_idem _ _
    · funext k
      by_cases hk : k = inv.stripe_id <;> simp [hk]

/-- C3: after `sync_invoice_items(invoice, items)` with pairwise
distinct item ids, the stored line items of the invoice are exactly one
per payload item, keyed by the item id, carrying the converted amount,
currency, proration, description, line type, plan, period bounds,
quantity and subscription of the payload; every previously stored line
item whose id is absent from the payload is removed. -/
theorem claim_C3_sync_invoice_items (env : Env) (db : DB) (inv : InvoiceRecord)
    (items : List ItemPayload) (hids : (items.map (fun it => it.id)).Nodup) :
    ((sync_invoice_items env db inv items).1.invoiceItems inv.stripe_id =
      items.map (fun it => (it.id, itemRecordOf env db.plans inv it))) ∧
    (∀ it ∈ items,
      lookupA ((sync_invoice_items env db inv items).1.invoiceItems inv.stripe_id) it.id =
        some (itemRecordOf env db.plans inv it)) ∧
    (∀ i : String, i ∉ items.map (fun it => it.id) →
      lookupA ((sync_invoice_items env db inv items).1.invoiceItems inv.stripe_id) i = none) ∧
    (∀ it ∈ items,
      (itemRecordOf env db.plans inv it).amount = convert_amount_for_db it.amount it.currency ∧
      (itemRecordOf env db.plans inv it).currency = it.currency ∧
      (itemRecordOf env db.plans inv it).proration = it.proration ∧
      (itemRecordOf env db.plans inv it).description = pyOr it.description "" ∧
      (itemRecordOf env db.plans inv it).line_type = it.line_type ∧
      (itemRecordOf env db.plans inv it).period_start = convert_tstamp it.period_start ∧
      (itemRecordOf env db.plans inv it).period_end = convert_tstamp it.period_end ∧
      (itemRecordOf env db.plans inv it).quantity = it.quantity ∧
      (itemRecordOf env db.plans inv it).subscription = itemSubscriptionOf env inv it) := by
  have hnodup2 : ((items.map (fun it => (it.id, itemRecordOf env db.plans inv it))).map Prod.fst).Nodup := by
    rw [List.map_map]
    exact hids
  have hstored : (sync_invoice_items env db inv items).1.invoiceItems inv.stripe_id =
      items.map (fun it => (it.id, itemRecordOf env db.plans inv it)) := by
    rw [sync_invoice_items_state]
    simp
    rw [applyUpsA_fresh _ [] (fun kv _ => rfl) hnodup2]
    simp
  refine ⟨hstored, ?_, ?_, ?_⟩
  · intro it hit
    rw [hstored]
    exact lookupA_keyed _ _ _ hnodup2 (List.mem_map.mpr ⟨it, hit, rfl⟩)
  · intro i hi
    rw [hstored]
    apply lookupA_of_not_mem
    intro kv hm
    rcases List.mem_map.mp hm with ⟨it, hit, rfl⟩
    intro hke
    exact hi (hke ▸ List.mem_map.mpr ⟨it, hit, rfl⟩)
  · intro it hit
    exact ⟨rfl, rfl, rfl, rfl, rfl, rfl, rfl, rfl, rfl⟩

/-- C4: a plan or SKU sync overwrites every mirrored field of the
object with values derived from the incoming payload, so syncing
payload B for an id after syncing payload A for the same id leaves the
stored fields exactly those derived from B, independent of A. -/
theorem claim_C4_last_write_wins (db : DB) (pA pB : PlanPayload) (sA sB : SkuPayload)
    (hplan : pA.id = pB.id) (hsku : sA.id = sB.id) :
    ((sync_plan (sync_plan db pA) pB).plans pB.id = some (planDefaults pB)) ∧
    (∀ (db1 db2 : DB) (r1 r2 : SkuRecord),
      sync_sku_from_stripe_data db sA = .ok (db1, r1) →
      sync_sku_from_stripe_data db1 sB = .ok (db2, r2) →
      db2.skus sB.id = some (skuDataRecord sB) ∧ r2 = skuDataRecord sB) := by
  constructor
  · rw [sync_plan_plans]
    exact Map.set_self _ _ _
  · intro db1 db2 r1 r2 h1 h2
    unfold sync_sku_from_stripe_data at h2
    by_cases hp : sB.product ∈ db1.products
    · simp [hp] at h2
      obtain ⟨hdb, hr⟩ := h2
      subst hdb
      subst hr
      exact ⟨Map.set_self _ _ _, rfl⟩
    · simp [hp] at h2

theorem createParams_active (product : String) (price : Rat) (inventory : String)
    (currency : String) (attributes image metadata package_dimensions : Option String)
    (active : Bool) :
    (Skus.createParams product price inventory currency attributes image metadata package_dimensions active).active =
      if active then some true else none := by
  by_cases h1 : (pyStrOpt attributes).isSome <;>
  by_cases h2 : (pyStrOpt image).isSome <;>
  by_cases h3 : (pyStrOpt metadata).isSome <;>
  by_cases h4 : (pyStrOpt package_dimensions).isSome <;>
  cases active <;>
    simp [Skus.createParams, h1, h2, h3, h4]

theorem keys_no_active (p : SkuParams) (h : p.active = none) :
    (SkuParams.keys p).contains "active" = false := by
  unfold SkuParams.keys
  rw [h]
  cases ha : p.attributes.isSome <;> cases hi : p.image.isSome <;>
    cases hm : p.metadata.isSome <;> cases hp : p.package_dimensions.isSome <;>
    simp [ha, hi, hm, hp]

/-- C10: `skus.create` puts the `active` key into the parameters sent
to the processor only when the `active` argument is truthy: with
`active=False` the request carries no `active` key at all, so this
operation can never create a SKU marked unavailable for purchase. -/
theorem claim_C10_sku_active_key (product : String) (price : Rat) (inventory : String)
    (currency : String) (attributes image metadata package_dimensions : Option String) :
    ((Skus.createParams product price inventory currency attributes image metadata package_dimensions false).active = none) ∧
    ((SkuParams.keys (Skus.createParams product price inventory currency attributes image metadata package_dimensions false)).contains "active" = false) ∧
    (∀ active : Bool,
      (((Skus.createParams product price inventory currency attributes image metadata package_dimensions active).active == some false)) = false) ∧
    ((Skus.createParams product price inventory currency attributes image metadata package_dimensions true).active = some true) := by
  refine ⟨?_, ?_, ?_, ?_⟩
  · simp [createParams_active]
  · exact keys_no_active _ (by simp [createParams_active])
  · intro active
    rw [createParams_active]
    cases active <;> rfl
  · simp [createParams_active]

/-- C5: `invoices.pay` issues the processor pay call followed by a
local sync and returns True exactly when the invoice is neither paid
nor closed; when the invoice is already paid or closed it returns
False, makes no processor call, and leaves all local state unchanged. -/
theorem claim_C5_pay (env : Env) (db : DB) (invoice : InvoiceRecord) (send_receipt : Bool) :
    ((invoice.paid = true ∨ invoice.closed = true) →
      Invoices.pay env db invoice send_receipt = (.ok (false, db), [])) ∧
    (invoice.paid = false → invoice.closed = false →
      ∀ (sp : InvoicePayload) (r : DB × InvoiceRecord) (calls : List StripeCall),
        env.payInvoice invoice.stripe_id = .ok sp →
        sync_invoice_from_stripe_data env db sp send_receipt = (.ok r, calls) →
        Invoices.pay env db invoice send_receipt =
          (.ok (true, r.1), StripeCall.invoicePay invoice.stripe_id :: calls)) := by
  constructor
  · intro h
    unfold Invoices.pay
    rcases h with h | h <;> simp [h]
  · intro hp hc sp r calls hpay hsync
    unfold Invoices.pay
    simp [hp, hc, hpay, hsync]

/-- C6: `invoices.create_and_pay` creates an invoice, pays it on the
processor only when its amount due is positive, and returns True; it
returns False exactly when the processor rejects the attempt with an
invalid-request error ending in `Nothing to invoice for customer`, and
re-raises every other invalid-request error. -/
theorem claim_C6_create_and_pay (env : Env) (db : DB) (customer : String) :
    (∀ m, env.createInvoice customer = .error (.invalidRequest m) →
      pyEndsWith m "Nothing to invoice for customer" = true →
      Invoices.create_and_pay env db customer = (.ok false, db, [StripeCall.invoiceCreate customer])) ∧
    (∀ m, env.createInvoice customer = .error (.invalidRequest m) →
      pyEndsWith m "Nothing to invoice for customer" = false →
      Invoices.create_and_pay env db customer =
        (.error (.invalidRequest m), db, [StripeCall.invoiceCreate customer])) ∧
    (∀ inv, env.createInvoice customer = .ok inv → inv.amount_due ≤ 0 →
      Invoices.create_and_pay env db customer = (.ok true, db, [StripeCall.invoiceCreate customer])) ∧
    (∀ inv sp, env.createInvoice customer = .ok inv → 0 < inv.amount_due →
      env.payInvoice inv.id = .ok sp →
      Invoices.create_and_pay env db customer =
        (.ok true, db, [StripeCall.invoiceCreate customer, StripeCall.invoicePay inv.id])) ∧
    (∀ inv m, env.createInvoice customer = .ok inv → 0 < inv.amount_due →
      env.payInvoice inv.id = .error (.invalidRequest m) →
      pyEndsWith m "Nothing to invoice for customer" = true →
      Invoices.create_and_pay env db customer =
        (.ok false, db, [StripeCall.invoiceCreate customer, StripeCall.invoicePay inv.id])) ∧
    (∀ inv m, env.createInvoice customer = .ok inv → 0 < inv.amount_due →
      env.payInvoice inv.id = .error (.invalidRequest m) →
      pyEndsWith m "Nothing to invoice for customer" = false →
      Invoices.create_and_pay env db customer =
        (.error (.invalidRequest m), db, [StripeCall.invoiceCreate customer, StripeCall.invoicePay inv.id])) := by
  refine ⟨?_, ?_, ?_, ?_, ?_, ?_⟩
  · intro m hcr hend
    simp [Invoices.create_and_pay, Invoices.create, Invoices.nothingToInvoice, hcr, hend]
  · intro m hcr hend
    simp [Invoices.create_and_pay, Invoices.create, Invoices.nothingToInvoice, hcr, hend]
  · intro inv hcr hle
    have hnot : ¬(inv.amount_due > 0) := not_lt.mpr hle
    simp [Invoices.create_and_pay, Invoices.create, hcr, hnot]
  · intro inv sp hcr hpos hpay
    simp [Invoices.create_and_pay, Invoices.create, hcr, hpos, hpay]
  · intro inv m hcr hpos hpay hend
    simp [Invoices.create_and_pay, Invoices.create, Invoices.nothingToInvoice, hcr, hpos, hpay, hend]
  · intro inv m hcr hpos hpay hend
    simp [Invoices.create_and_pay, Invoices.create, Invoices.nothingToInvoice, hcr, hpos, hpay, hend]

/-- C7: no sync operation (`sync_plans`, `sync_skus`,
`sync_invoice_from_stripe_data`) ever issues a state-mutating call to
the processor: every processor call in their traces is a read. -/
theorem claim_C7_sync_reads_only :
    (∀ (env : Env) (db : DB), ((sync_plans env db).2.all (fun c => !c.isWrite)) = true) ∧
    (∀ (env : Env) (db : DB), ((sync_skus env db).2.all (fun c => !c.isWrite)) = true) ∧
    (∀ (env : Env) (db : DB) (p : InvoicePayload) (sr : Bool),
      ((sync_invoice_from_stripe_data env db p sr).2.all (fun c => !c.isWrite)) = true) := by
  refine ⟨?_, ?_, ?_⟩
  · intro env db
    rfl
  · intro env db
    rfl
  · intro env db p sr
    have hitems : ∀ (db4 : DB) (invR : InvoiceRecord) (c : StripeCall),
        c ∈ (sync_invoice_items env db4 invR p.lines).2 → c.isWrite = false := by
      intro db4 invR c hc2
      rw [sync_invoice_items_calls] at hc2
      rcases List.mem_filterMap.mp hc2 with ⟨it, _, hcall⟩
      exact itemCall_not_write invR it c hcall
    by_cases hcu : p.customer ∈ db.customers
    · cases hch : pyStrOpt p.charge with
      | none =>
        cases hsub : pyStrOpt p.subscription with
        | none =>
          simp [sync_invoice_from_stripe_data, hcu, hch, hsub, sync_charge,
            sync_subscription_from_stripe_data, List.all_append, StripeCall.isWrite]
          intro x hx
          exact hitems _ _ x hx
        | some sid =>
          cases hrs : env.retrieveSubscription sid <;>
            (simp [sync_invoice_from_stripe_data, hcu, hch, hsub, hrs, sync_charge,
              sync_subscription_from_stripe_data, List.all_append, StripeCall.isWrite]
             intro x hx
             exact hitems _ _ x hx)
      | some cid =>
        cases hsub : pyStrOpt p.subscription with
        | none =>
          simp [sync_invoice_from_stripe_data, hcu, hch, hsub, sync_charge,
            sync_subscription_from_stripe_data, List.all_append, StripeCall.isWrite]
          intro x hx
          exact hitems _ _ x hx
        | some sid =>
          cases hrs : env.retrieveSubscription sid <;>
            (simp [sync_invoice_from_stripe_data, hcu, hch, hsub, hrs, sync_charge,
              sync_subscription_from_stripe_data, List.all_append, StripeCall.isWrite]
             intro x hx
             exact hitems _ _ x hx)
    · simp [sync_invoice_from_stripe_data, hcu]

/-- C9: `invoices.retrieve` and `skus.retrieve` return None both for an
empty id and for an invalid-request error containing `No such invoice`
(respectively `No such sku`); every other processor error raised during
retrieval is propagated unchanged. -/
theorem claim_C9_retrieve_not_found (env : Env) :
    (Invoices.retrieve env "" = (.ok none, []) ∧ Skus.retrieve env "" = (.ok none, [])) ∧
    (∀ iid m, iid ≠ "" → env.retrieveInvoice iid = .error (.invalidRequest m) →
      containsSub m "No such invoice" = true →
      Invoices.retrieve env iid = (.ok none, [StripeCall.invoiceRetrieve iid])) ∧
    (∀ iid m, iid ≠ "" → env.retrieveInvoice iid = .error (.invalidRequest m) →
      containsSub m "No such invoice" = false →
      Invoices.retrieve env iid = (.error (.invalidRequest m), [StripeCall.invoiceRetrieve iid])) ∧
    (∀ iid m, iid ≠ "" → env.retrieveInvoice iid = .error (.otherError m) →
      Invoices.retrieve env iid = (.error (.otherError m), [StripeCall.invoiceRetrieve iid])) ∧
    (∀ iid v, iid ≠ "" → env.retrieveInvoice iid = .ok v →
      Invoices.retrieve env iid = (.ok (some v), [StripeCall.invoiceRetrieve iid])) ∧
    (∀ sid m, sid ≠ "" → env.retrieveSku sid = .error (.invalidRequest m) →
      containsSub m "No such sku" = true →
      Skus.retrieve env sid = (.ok none, [StripeCall.skuRetrieve sid])) ∧
    (∀ sid m, sid ≠ "" → env.retrieveSku sid = .error (.invalidRequest m) →
      containsSub m "No such sku" = false →
      Skus.retrieve env sid = (.error (.invalidRequest m), [StripeCall.skuRetrieve sid])) ∧
    (∀ sid m, sid ≠ "" → env.retrieveSku sid = .error (.otherError m) →
      Skus.retrieve env sid = (.error (.otherError m), [StripeCall.skuRetrieve sid])) := by
  refine ⟨⟨rfl, rfl⟩, ?_, ?_, ?_, ?_, ?_, ?_, ?_⟩
  · intro iid m hne hr hcs
    simp [Invoices.retrieve, hne, hr, hcs]
  · intro iid m hne hr hcs
    simp [Invoices.retrieve, hne, hr, hcs]
  · intro iid m hne hr
    simp [Invoices.retrieve, hne, hr]
  · intro iid v hne hr
    simp [Invoices.retrieve, hne, hr]
  · intro sid m hne hr hcs
    simp [Skus.retrieve, hne, hr, hcs]
  · intro sid m hne hr hcs
    simp [Skus.retrieve, hne, hr, hcs]
  · intro sid m hne hr
    simp [Skus.retrieve, hne, hr]

theorem countP_zero_iff_any_false (st : WebhookState) (i : String) :
    st.events.countP (fun e => e.stripe_id == i) = 0 ↔
      st.events.any (fun e => e.stripe_id == i) = false := by
  constructor
  · intro h
    cases ha : st.events.any (fun e => e.stripe_id == i) with
    | false => rfl
    | true =>
      rcases List.any_eq_true.mp ha with ⟨x, hx, hp⟩
      have := List.countP_eq_zero.mp h x hx
      simp [hp] at this
  · intro h
    rw [List.countP_eq_zero]
    intro a ha hp
    have : st.events.any (fun e => e.stripe_id == i) = true := List.any_eq_true.mpr ⟨a, ha, hp⟩
    rw [h] at this
    cases this

/-- C8: the webhook endpoint keeps at most one Event row per processor
event id and processes each event at most once: a delivery whose event
id is already recorded creates only an EventProcessingException with
message `Duplicate event record` and neither creates, validates, nor
processes an Event, while a delivery with a fresh id creates exactly
one Event, validated and processed exactly once. -/
theorem claim_C8_webhook_dedup (st : WebhookState) (data : EventData) :
    (st.events.countP (fun e => e.stripe_id == data.id) ≠ 0 →
      (webhook st data).1.events = st.events ∧
      (webhook st data).1.exceptions =
        st.exceptions ++ [{ data := data.raw, message := "Duplicate event record", traceback := "" }] ∧
      (webhook st data).2 = [WebhookEffect.createdException "Duplicate event record"]) ∧
    (st.events.countP (fun e => e.stripe_id == data.id) = 0 →
      (webhook st data).1.events =
        st.events ++ [{ stripe_id := data.id, kind := data.kind, livemode := data.livemode, webhook_message := data.raw }] ∧
      (webhook st data).1.exceptions = st.exceptions ∧
      (webhook st data).2 =
        [WebhookEffect.createdEvent data.id, WebhookEffect.validated data.id, WebhookEffect.processed data.id] ∧
      (webhook st data).1.events.countP (fun e => e.stripe_id == data.id) = 1) ∧
    (∀ i : String, st.events.countP (fun e => e.stripe_id == i) ≤ 1 →
      (webhook st data).1.events.countP (fun e => e.stripe_id == i) ≤ 1) := by
  refine ⟨?_, ?_, ?_⟩
  · intro h
    have hany : st.events.any (fun e => e.stripe_id == data.id) = true := by
      cases ha : st.events.any (fun e => e.stripe_id == data.id) with
      | true => rfl
      | false => exact absurd ((countP_zero_iff_any_false st data.id).mpr ha) h
    refine ⟨?_, ?_, ?_⟩ <;> simp [webhook, hany]
  · intro h
    have hany : st.events.any (fun e => e.stripe_id == data.id) = false :=
      (countP_zero_iff_any_false st data.id).mp h
    refine ⟨?_, ?_, ?_, ?_⟩ <;> simp [webhook, hany]
    intro a ha
    have := List.countP_eq_zero.mp h a ha
    simpa using this
  · intro i hle
    cases hany : st.events.any (fun e => e.stripe_id == data.id) with
    | true =>
      simpa [webhook, hany] using hle
    | false =>
      simp [webhook, hany, List.countP_append]
      by_cases hid : data.id = i
      · subst hid
        have h0 : st.events.countP (fun e => e.stripe_id == data.id) = 0 :=
          (countP_zero_iff_any_false st data.id).mpr hany
        simp [h0, List.countP_cons]
      · have hne : (({ stripe_id := data.id, kind := data.kind, livemode := data.livemode, webhook_message := data.raw } : EventRecord).stripe_id == i) = false := by
          simp [hid]
        simp [List.countP_cons, hne]
        exact hle

/-- C2 is refuted on the code: `invoices.create` hands the processor
response back without invoking any sync routine (the source carries a
TODO noting that the local object must wait for the webhook).  With the
oracle `envW`, the create call answers invoice `in_1`, yet afterwards
the local store has no row `in_1` and is unchanged. -/
theorem claim_C2_counterexample :
    (Invoices.create envW dbW "cus_1").1 = .ok spW ∧
    spW.id = "in_1" ∧
    (Invoices.create envW dbW "cus_1").2.1.invoices "in_1" = none ∧
    (Invoices.create envW dbW "cus_1").2.1 = dbW :=
  ⟨rfl, rfl, rfl, rfl⟩

/-- C2 (amended): `invoices.pay` and `skus.create` pass the processor
result to the corresponding Sync routine before returning, so the local
mirror reflects the result of those actions; `invoices.create` however
returns the processor response unchanged and leaves the local store
untouched, deferring the mirror update to webhook processing. -/
theorem claim_C2_amended :
    (∀ (env : Env) (db : DB) (customer : String),
      (Invoices.create env db customer).2.1 = db ∧
      (Invoices.create env db customer).1 = env.createInvoice customer) ∧
    (∀ (env : Env) (db : DB) (product : String) (price : Rat) (inventory : String)
      (currency : String) (attributes image metadata package_dimensions : Option String)
      (active : Bool),
      Skus.create env db product price inventory currency attributes image metadata package_dimensions active =
        (sync_sku_from_stripe_data db
          (env.createSku (Skus.createParams product price inventory currency attributes image metadata package_dimensions active)),
         [StripeCall.skuCreate])) ∧
    (∀ (db : DB) (s : SkuPayload) (db2 : DB) (r : SkuRecord),
      sync_sku_from_stripe_data db s = .ok (db2, r) →
      db2.skus s.id = some (skuDataRecord s) ∧ r = skuDataRecord s) ∧
    (∀ (env : Env) (db : DB) (invoice : InvoiceRecord) (send_receipt : Bool)
      (sp : InvoicePayload) (r : DB × InvoiceRecord) (calls : List StripeCall),
      invoice.paid = false → invoice.closed = false →
      env.payInvoice invoice.stripe_id = .ok sp →
      sync_invoice_from_stripe_data env db sp send_receipt = (.ok r, calls) →
      Invoices.pay env db invoice send_receipt =
        (.ok (true, r.1), StripeCall.invoicePay invoice.stripe_id :: calls)) := by
  refine ⟨?_, ?_, ?_, ?_⟩
  · intro env db customer
    exact ⟨rfl, rfl⟩
  · intro env db product price inventory currency attributes image metadata package_dimensions active
    rfl
  · intro db s db2 r h
    unfold sync_sku_from_stripe_data at h
    by_cases hp : s.product ∈ db.products
    · simp [hp] at h
      obtain ⟨hdb, hr⟩ := h
      subst hdb
      subst hr
      exact ⟨Map.set_self _ _ _, rfl⟩
    · simp [hp] at h
  · intro env db invoice send_receipt sp r calls hp hc hpay hsync
    unfold Invoices.pay
    simp [hp, hc, hpay, hsync]

/-- Witness for C1 at concrete inputs: a tiered plan payload, the SKU
payload `skuPW` on the store `dbW1` that already mirrors it, and two
line items (one of them a subscription item). -/
theorem claim_C1_sync_idempotent_witness :
    sync_plan (sync_plan dbW planPWB) planPWB = sync_plan dbW planPWB ∧
    sync_sku_from_stripe_data dbW1 skuPW = .ok (dbW1, skuDataRecord skuPW) ∧
    (sync_invoice_items envW8 ((sync_invoice_items envW8 dbW invW [itemW1, itemW2]).1) invW [itemW1, itemW2]).1 =
      (sync_invoice_items envW8 dbW invW [itemW1, itemW2]).1 :=
  ⟨claim_C1_sync_idempotent.1 dbW planPWB,
   claim_C1_sync_idempotent.2.1 dbW dbW1 (skuDataRecord skuPW) skuPW rfl,
   claim_C1_sync_idempotent.2.2 envW8 dbW invW [itemW1, itemW2]⟩

/-- Witness for C3 at a concrete two-item payload with distinct ids. -/
theorem claim_C3_sync_invoice_items_witness :
    ((sync_invoice_items envW8 dbW invW [itemW1, itemW2]).1.invoiceItems invW.stripe_id =
      [itemW1, itemW2].map (fun it => (it.id, itemRecordOf envW8 dbW.plans invW it))) ∧
    lookupA ((sync_invoice_items envW8 dbW invW [itemW1, itemW2]).1.invoiceItems invW.stripe_id) "absent" = none :=
  ⟨(claim_C3_sync_invoice_items envW8 dbW invW [itemW1, itemW2] (by decide)).1,
   (claim_C3_sync_invoice_items envW8 dbW invW [itemW1, itemW2] (by decide)).2.2.1 "absent" (by decide)⟩

/-- Witness for C4: syncing `planPW` then `planPWB` (same id) leaves
the plan row of B; syncing `skuPW` then `skuPW2` (same id) leaves the
SKU row of `skuPW2`. -/
theorem claim_C4_last_write_wins_witness :
    ((sync_plan (sync_plan dbW planPW) planPWB).plans planPWB.id = some (planDefaults planPWB)) ∧
    (dbW2.skus skuPW2.id = some (skuDataRecord skuPW2) ∧ skuDataRecord skuPW2 = skuDataRecord skuPW2) :=
  ⟨(claim_C4_last_write_wins dbW planPW planPWB skuPW skuPW2 rfl rfl).1,
   (claim_C4_last_write_wins dbW planPW planPWB skuPW skuPW2 rfl rfl).2 dbW1 dbW2
     (skuDataRecord skuPW) (skuDataRecord skuPW2) rfl rfl⟩

/-- Witness for C5: the paid invoice row `invW` short-circuits to
False with no calls; the open row `invW2` pays and syncs back. -/
theorem claim_C5_pay_witness :
    Invoices.pay envW dbW invW true = (.ok (false, dbW), []) ∧
    Invoices.pay envW dbW invW2 true =
      (.ok (true, dbWpaid), [StripeCall.invoicePay invW2.stripe_id]) :=
  ⟨(claim_C5_pay envW dbW invW true).1 (Or.inl rfl),
   (claim_C5_pay envW dbW invW2 true).2 rfl rfl spW (dbWpaid, invoiceDefaults spW none none) [] rfl rfl⟩

/-- Witness for C6 across the five behaviours: nothing-to-invoice on
create, unrelated create error, nothing due, successful pay, and
nothing-to-invoice on pay. -/
theorem claim_C6_create_and_pay_witness :
    Invoices.create_and_pay envW4 dbW "cus_1" = (.ok false, dbW, [StripeCall.invoiceCreate "cus_1"]) ∧
    Invoices.create_and_pay envW5 dbW "cus_1" =
      (.error (.invalidRequest "Invalid customer id"), dbW, [StripeCall.invoiceCreate "cus_1"]) ∧
    Invoices.create_and_pay envW7 dbW "cus_1" = (.ok true, dbW, [StripeCall.invoiceCreate "cus_1"]) ∧
    Invoices.create_and_pay envW dbW "cus_1" =
      (.ok true, dbW, [StripeCall.invoiceCreate "cus_1", StripeCall.invoicePay spW.id]) ∧
    Invoices.create_and_pay envW6 dbW "cus_1" =
      (.ok false, dbW, [StripeCall.invoiceCreate "cus_1", StripeCall.invoicePay spW.id]) :=
  ⟨(claim_C6_create_and_pay envW4 dbW "cus_1").1
      "Customer cus_1: Nothing to invoice for customer" rfl (by decide),
   (claim_C6_create_and_pay envW5 dbW "cus_1").2.1 "Invalid customer id" rfl (by decide),
   (claim_C6_create_and_pay envW7 dbW "cus_1").2.2.1 spW0 rfl (by decide),
   (claim_C6_create_and_pay envW dbW "cus_1").2.2.2.1 spW spW rfl (by decide) rfl,
   (claim_C6_create_and_pay envW6 dbW "cus_1").2.2.2.2.1 spW
      "Customer cus_1: Nothing to invoice for customer" rfl (by decide) rfl (by decide)⟩

/-- Witness for C8: a duplicate delivery of `evD` on `wstDup`, a fresh
delivery on the empty store, and invariant preservation at `evt_1`. -/
theorem claim_C8_webhook_dedup_witness :
    ((webhook wstDup evD).1.events = wstDup.events ∧
     (webhook wstDup evD).1.exceptions =
       wstDup.exceptions ++ [{ data := evD.raw, message := "Duplicate event record", traceback := "" }] ∧
     (webhook wstDup evD).2 = [WebhookEffect.createdException "Duplicate event record"]) ∧
    ((webhook wstEmpty evD).1.events =
       wstEmpty.events ++ [{ stripe_id := evD.id, kind := evD.kind, livemode := evD.livemode, webhook_message := evD.raw }] ∧
     (webhook wstEmpty evD).1.exceptions = wstEmpty.exceptions ∧
     (webhook wstEmpty evD).2 =
       [WebhookEffect.createdEvent evD.id, WebhookEffect.validated evD.id, WebhookEffect.processed evD.id] ∧
     (webhook wstEmpty evD).1.events.countP (fun e => e.stripe_id == evD.id) = 1) ∧
    ((webhook wstDup evD).1.events.countP (fun e => e.stripe_id == "evt_1") ≤ 1) :=
  ⟨(claim_C8_webhook_dedup wstDup evD).1 (by decide),
   (claim_C8_webhook_dedup wstEmpty evD).2.1 (by decide),
   (claim_C8_webhook_dedup wstDup evD).2.2 "evt_1" (by decide)⟩

/-- Witness for C9 across the behaviours of both retrieve actions:
empty id, not-found invalid-request error, unrelated invalid-request
error, non-invalid-request error, and successful retrieval. -/
theorem claim_C9_retrieve_not_found_witness :
    (Invoices.retrieve envW "" = (.ok none, []) ∧ Skus.retrieve envW "" = (.ok none, [])) ∧
    Invoices.retrieve envW "in_x" = (.ok none, [StripeCall.invoiceRetrieve "in_x"]) ∧
    Invoices.retrieve envW2 "in_x" = (.error (.invalidRequest "Bad request"), [StripeCall.invoiceRetrieve "in_x"]) ∧
    Invoices.retrieve envW3 "in_x" = (.error (.otherError "connection reset"), [StripeCall.invoiceRetrieve "in_x"]) ∧
    Invoices.retrieve envW9 "in_1" = (.ok (some spW), [StripeCall.invoiceRetrieve "in_1"]) ∧
    Skus.retrieve envW "sku_x" = (.ok none, [StripeCall.skuRetrieve "sku_x"]) ∧
    Skus.retrieve envW2 "sku_x" = (.error (.invalidRequest "Bad request"), [StripeCall.skuRetrieve "sku_x"]) ∧
    Skus.retrieve envW3 "sku_x" = (.error (.otherError "connection reset"), [StripeCall.skuRetrieve "sku_x"]) :=
  ⟨(claim_C9_retrieve_not_found envW).1,
   (claim_C9_retrieve_not_found envW).2.1 "in_x" "No such invoice: in_x" (by decide) rfl (by decide),
   (claim_C9_retrieve_not_found envW2).2.2.1 "in_x" "Bad request" (by decide) rfl (by decide),
   (claim_C9_retrieve_not_found envW3).2.2.2.1 "in_x" "connection reset" (by decide) rfl,
   (claim_C9_retrieve_not_found envW9).2.2.2.2.1 "in_1" spW (by decide) rfl,
   (claim_C9_retrieve_not_found envW).2.2.2.2.2.1 "sku_x" "No such sku: sku_x" (by decide) rfl (by decide),
   (claim_C9_retrieve_not_found envW2).2.2.2.2.2.2.1 "sku_x" "Bad request" (by decide) rfl (by decide),
   (claim_C9_retrieve_not_found envW3).2.2.2.2.2.2.2 "sku_x" "connection reset" (by decide) rfl⟩

/-- Witness for the amended C2: invoice create leaves `dbW` untouched,
SKU create returns the synced result, the synced SKU row mirrors the
payload, and pay syncs the processor response back. -/
theorem claim_C2_amended_witness :
    ((Invoices.create envW dbW "cus_1").2.1 = dbW ∧
     (Invoices.create envW dbW "cus_1").1 = envW.createInvoice "cus_1") ∧
    (Skus.create envW dbW "prod_1" 5 "finite 1" "usd" none none none none true =
      (sync_sku_from_stripe_data dbW
        (envW.createSku (Skus.createParams "prod_1" 5 "finite 1" "usd" none none none none true)),
       [StripeCall.skuCreate])) ∧
    (dbW1.skus skuPW.id = some (skuDataRecord skuPW) ∧ skuDataRecord skuPW = skuDataRecord skuPW) ∧
    (Invoices.pay envW dbW invW2 true = (.ok (true, dbWpaid), [StripeCall.invoicePay invW2.stripe_id])) :=
  ⟨claim_C2_amended.1 envW dbW "cus_1",
   claim_C2_amended.2.1 envW dbW "prod_1" 5 "finite 1" "usd" none none none none true,
   claim_C2_amended.2.2.1 dbW skuPW dbW1 (skuDataRecord skuPW) rfl,
   claim_C2_amended.2.2.2 envW dbW invW2 true spW (dbWpaid, invoiceDefaults spW none none) [] rfl rfl rfl rfl⟩
